import Mathlib

/-!
Verification development for the cetino table-storage package: a shallow
embedding of the schema model, DDL generation, statement building, the
table-storage lifecycle and the CSV dump exporter, with theorems about the
behaviour documented in the repository readme and user guide.
-/

set_option autoImplicit false

deriving instance DecidableEq for Except

namespace Cetino

/-- Modelled from the spec: the enumerated scalar storage
types (the implementation module `cetino.db.sqlite.type` is not in the
sources; the spec lists INTEGER, TEXT, REAL, BLOB, DATE). -/
inductive SQLiteDataType where
  | INTEGER
  | TEXT
  | REAL
  | BLOB
  | DATE
deriving DecidableEq

/-- Modelled from the spec: the column-type token each FieldType maps to
(the notebook shows `student_id INTEGER`, `name TEXT`, `age INTEGER`). -/
def SQLiteDataType.token : SQLiteDataType → String
  | .INTEGER => "INTEGER"
  | .TEXT => "TEXT"
  | .REAL => "REAL"
  | .BLOB => "BLOB"
  | .DATE => "DATE"

/-- Modelled from the spec: native record values bound to statements.
`vNull` stands for SQL NULL (used for omitted fields). -/
inductive Value where
  | vNull
  | vInt (n : Int)
  | vText (s : String)
  | vReal (q : Rat)
  | vBlob (bytes : List Nat)
deriving DecidableEq

/-- Modelled from the spec: type compatibility of a native value with a
declared FieldType ("values must be type-compatible with their FieldType or
coercible without loss"; an integer is losslessly coercible to REAL, a DATE
is carried as text, NULL is accepted everywhere). -/
def Value.compatible : Value → SQLiteDataType → Bool
  | .vNull, _ => true
  | .vInt _, .INTEGER => true
  | .vInt _, .REAL => true
  | .vReal _, .REAL => true
  | .vText _, .TEXT => true
  | .vText _, .DATE => true
  | .vBlob _, .BLOB => true
  | _, _ => false

/-- Modelled from the spec: the canonical text form of a value, used by the
Dump Exporter when rendering CSV cells. -/
def Value.render : Value → String
  | .vNull => ""
  | .vInt n => toString n
  | .vText s => s
  | .vReal q => toString q
  | .vBlob bs => toString bs

/-- Modelled from the spec: the error taxonomy of §7. -/
inductive CetinoError where
  | schemaError
  | unsupportedTypeError
  | unknownFieldError
  | typeMismatchError
  | tableExistsError
  | tableNotFoundError
  | connectionError
  | notOpenError
  | storageEngineError
  | exportError
deriving DecidableEq

/-- Modelled from the spec: the Schema Descriptor — table name, ordered
field-name→type mapping, primary-key tuple and unique-key tuples. -/
structure Schema where
  table_name : String
  fields : List (String × SQLiteDataType)
  primary_key : List String
  unique_keys : List (List String)
deriving DecidableEq

/-- The declared field names, in declaration order. -/
def Schema.fieldNames (s : Schema) : List String :=
  s.fields.map Prod.fst

/-- Boolean no-duplicates check on a list of names. -/
def nodupNames : List String → Bool
  | [] => true
  | x :: xs => !xs.contains x && nodupNames xs

/-- Modelled from the spec: construction-time validation of a Schema
Descriptor — non-empty table name, non-empty duplicate-free fields, and
every primary-key / unique-key name declared among the fields. -/
def schemaOk (s : Schema) : Bool :=
  s.table_name ≠ "" &&
  !s.fields.isEmpty &&
  nodupNames s.fieldNames &&
  s.primary_key.all s.fieldNames.contains &&
  s.unique_keys.all (fun u => u.all s.fieldNames.contains)

/-- The default primary-key field name (notebook: default is ("_id",)). -/
def defaultKeyName : String := "_id"

/-- Modelled from the spec: assembly of a Schema Descriptor from the
declared surface — when `primary_key` is omitted it defaults to
`("_id",)`. -/
def rawSchema (table_name : String) (fields : List (String × SQLiteDataType))
    (primary_key : Option (List String)) (unique_keys : List (List String)) :
    Schema :=
  { table_name := table_name
    fields := fields
    primary_key := primary_key.getD [defaultKeyName]
    unique_keys := unique_keys }

/-- Modelled from the spec: the Schema Descriptor constructor validates the
assembled schema and fails with `SchemaError` when validation fails. -/
def mkSchema (table_name : String) (fields : List (String × SQLiteDataType))
    (primary_key : Option (List String)) (unique_keys : List (List String)) :
    Except CetinoError Schema :=
  if schemaOk (rawSchema table_name fields primary_key unique_keys) then
    .ok (rawSchema table_name fields primary_key unique_keys)
  else .error .schemaError

/-- A column clause `<name> <column-type-token>` of the create statement. -/
def columnClause (f : String × SQLiteDataType) : String :=
  f.1 ++ " " ++ f.2.token

/-- The `PRIMARY KEY (...)` clause list: one clause when the primary key is
non-empty, none otherwise. -/
def primaryKeyClauses (s : Schema) : List String :=
  if s.primary_key.isEmpty then []
  else ["PRIMARY KEY (" ++ String.intercalate ", " s.primary_key ++ ")"]

/-- A `UNIQUE (...)` clause for one unique-key tuple. -/
def uniqueClause (u : List String) : String :=
  "UNIQUE (" ++ String.intercalate ", " u ++ ")"

/-- Modelled from the spec: the full clause list of the create statement —
one column clause per declared field in declaration order, then the primary
key clause when non-empty, then one UNIQUE clause per unique-key tuple. -/
def createClauses (s : Schema) : List String :=
  s.fields.map columnClause ++ primaryKeyClauses s ++ s.unique_keys.map uniqueClause

/-- Modelled from the spec: the create-table statement of the DDL Generator,
matching the byte-exact shape printed in the user guide:
`CREATE TABLE <name> (\n<clauses joined by ,\n>\n);`. -/
def create_statement (s : Schema) : String :=
  "CREATE TABLE " ++ s.table_name ++ " (\n" ++
    String.intercalate ",\n" (createClauses s) ++ "\n);"

/-- Modelled from the spec: the drop-table statement of the DDL Generator,
conditionally guarded by IF EXISTS. -/
def drop_statement (s : Schema) (if_exists : Bool) : String :=
  "DROP TABLE " ++ (if if_exists then "IF EXISTS " else "") ++ s.table_name ++ ";"

/-- A Record is an ordered field-name→value mapping. -/
abbrev Record := List (String × Value)

/-- The keys of a record. -/
def recordKeys (r : Record) : List String :=
  r.map Prod.fst

/-- Modelled from the spec: every key present in the record must be a
declared field name. -/
def recordFieldsOk (s : Schema) (r : Record) : Bool :=
  r.all (fun kv => s.fieldNames.contains kv.1)

/-- Modelled from the spec: every provided value must be type-compatible
with the declared FieldType of its field per the Type Registry. -/
def recordTypesOk (s : Schema) (r : Record) : Bool :=
  r.all (fun kv =>
    match s.fields.lookup kv.1 with
    | some t => kv.2.compatible t
    | none => true)

/-- Modelled from the spec: per-record validation of §4.4 — an undeclared
key fails with `UnknownFieldError`, an incompatible value with
`TypeMismatchError`; both are detected before any statement is built. -/
def validateRecord (s : Schema) (r : Record) : Except CetinoError Unit :=
  if !recordFieldsOk s r then .error .unknownFieldError
  else if !recordTypesOk s r then .error .typeMismatchError
  else .ok ()

/-- The subset of declared fields present in the record, in schema
declaration order. -/
def presentFields (s : Schema) (r : Record) : List (String × SQLiteDataType) :=
  s.fields.filter (fun f => (r.lookup f.1).isSome)

/-- Modelled from the spec: the parameterized insert of the Statement Builder —
validates the record, then emits column names in schema declaration order
restricted to the keys present, with one `?` placeholder and one bound value
per present column. -/
def insert_statement (s : Schema) (r : Record) :
    Except CetinoError (String × List Value) :=
  match validateRecord s r with
  | .error e => .error e
  | .ok _ =>
    let names := (presentFields s r).map Prod.fst
    .ok ("INSERT INTO " ++ s.table_name ++ " (" ++ String.intercalate ", " names ++
          ") VALUES (" ++ String.intercalate ", " (names.map fun _ => "?") ++ ");",
         (presentFields s r).map (fun f => (r.lookup f.1).getD .vNull))

/-- Modelled from the spec: the batch-insert builder — validates every
record and builds every statement before anything is executed; fails on the
first invalid record without producing any statement. -/
def batch_insert_statements (s : Schema) :
    List Record → Except CetinoError (List (String × List Value))
  | [] => .ok []
  | r :: rest =>
    match insert_statement s r with
    | .error e => .error e
    | .ok p =>
      match batch_insert_statements s rest with
      | .error e => .error e
      | .ok ps => .ok (p :: ps)

/-- A select statement handed to the storage engine: the statement text, the
ordered bound values, and the row limit the engine is asked to apply. -/
structure SelectStmt where
  text : String
  values : List Value
  limit : Option Nat
deriving DecidableEq

/-- The WHERE fragment of a select statement: AND-combined exact-match
constraints, one `<field> = ?` per filter entry. -/
def whereText (filter : Record) : String :=
  if filter.isEmpty then ""
  else " WHERE " ++ String.intercalate " AND " (filter.map (fun kv => kv.1 ++ " = ?"))

/-- The LIMIT fragment of a select statement. -/
def limitText : Option Nat → String
  | none => ""
  | some n => " LIMIT " ++ toString n

/-- Modelled from the spec: the filtered select of the Statement Builder — fails
with `UnknownFieldError` when a filter key is undeclared; the limit is put
into the statement itself, bounding the rows requested from the storage
engine rather than truncating a materialized result. -/
def select_statement (s : Schema) (filter : Record) (limit : Option Nat) :
    Except CetinoError SelectStmt :=
  if !recordFieldsOk s filter then .error .unknownFieldError
  else .ok { text := "SELECT * FROM " ++ s.table_name ++ whereText filter ++
                     limitText limit ++ ";"
             values := filter.map Prod.snd
             limit := limit }

/-- A stored row: one value per declared column. -/
abbrev Row := Record

/-- Whether a row satisfies every exact-match constraint of a filter. -/
def matchesFilter (filter : Record) (row : Row) : Bool :=
  filter.all (fun kv => decide (row.lookup kv.1 = some kv.2))

/-- Modelled from the spec: the evaluation of a select by the
storage-engine collaborator — the matching rows, with the limit carried by
the statement bounding how many
rows the engine produces. -/
def engineSelect (rows : List Row) (filter : Record) (limit : Option Nat) :
    List Row :=
  match limit with
  | none => rows.filter (matchesFilter filter)
  | some n => (rows.filter (matchesFilter filter)).take n

/-- Modelled from the spec: the observable state of a Table Storage
instance — the open/closed connection state, whether the physical table
exists, and the committed rows. -/
structure TableState where
  isOpen : Bool
  tableExists : Bool
  rows : List Row
deriving DecidableEq

/-- The row committed to the engine for a record: one value per declared
field in declaration order, NULL for omitted fields. -/
def storedRow (s : Schema) (r : Record) : Row :=
  s.fieldNames.map (fun nm => (nm, (r.lookup nm).getD .vNull))

/-- Modelled from the spec: `create(allow_exist)` — requires an open
session; a no-op success when the table exists and `allow_exist` is true,
`TableExistsError` when it exists and the flag is false. -/
def create (s : Schema) (allow_exist : Bool) (st : TableState) :
    Except CetinoError Unit × TableState :=
  if !st.isOpen then (.error .notOpenError, st)
  else if st.tableExists then
    if allow_exist then (.ok (), st) else (.error .tableExistsError, st)
  else (.ok (), { st with tableExists := true })

/-- Modelled from the spec: `drop(allow_not_exist)` — mirrors `create`,
failing with `TableNotFoundError` when the table is absent and the flag is
false. -/
def drop (s : Schema) (allow_not_exist : Bool) (st : TableState) :
    Except CetinoError Unit × TableState :=
  if !st.isOpen then (.error .notOpenError, st)
  else if !st.tableExists then
    if allow_not_exist then (.ok (), st) else (.error .tableNotFoundError, st)
  else (.ok (), { st with tableExists := false, rows := [] })

/-- Modelled from the spec: `insert(record)` — requires an open session,
validates via the Statement Builder before anything reaches the engine, then
commits one row. -/
def insert (s : Schema) (r : Record) (st : TableState) :
    Except CetinoError Unit × TableState :=
  if !st.isOpen then (.error .notOpenError, st)
  else
    match insert_statement s r with
    | .error e => (.error e, st)
    | .ok _ =>
      if !st.tableExists then (.error .storageEngineError, st)
      else (.ok (), { st with rows := st.rows ++ [storedRow s r] })

/-- Modelled from the spec: `insert_many(records)` — requires an open
session, validates all records and builds all statements before any reaches
the engine, then commits them as one atomic unit of work: all rows or
none. -/
def insert_many (s : Schema) (records : List Record) (st : TableState) :
    Except CetinoError Unit × TableState :=
  if !st.isOpen then (.error .notOpenError, st)
  else
    match batch_insert_statements s records with
    | .error e => (.error e, st)
    | .ok _ =>
      if !st.tableExists then (.error .storageEngineError, st)
      else (.ok (), { st with rows := st.rows ++ records.map (storedRow s) })

/-- Modelled from the spec: `query(filter, limit)` — requires an open
session, builds the select statement, and has the engine evaluate it with
the limit the statement carries. -/
def query (s : Schema) (filter : Record) (limit : Option Nat) (st : TableState) :
    Except CetinoError (List Row) × TableState :=
  if !st.isOpen then (.error .notOpenError, st)
  else
    match select_statement s filter limit with
    | .error e => (.error e, st)
    | .ok stmt =>
      if !st.tableExists then (.error .storageEngineError, st)
      else (.ok (engineSelect st.rows filter stmt.limit), st)

/-- One CSV data line for a row, cells in the given column order rendered in
the canonical text form of each value. -/
def rowLine (column_order : List String) (row : Row) : String :=
  String.intercalate "," (column_order.map (fun c => ((row.lookup c).getD .vNull).render))

/-- Modelled from the spec: the Dump Exporter — a header row matching the
column order, then one line per record. -/
def exportRows (records : List Row) (column_order : List String) : List String :=
  String.intercalate "," column_order :: records.map (rowLine column_order)

/-- Modelled from the spec: `query_dump(filter, limit, file_path)` —
executes `query`, then routes the result through the Dump Exporter with the
declared column order as header (the file-system write is the out-of-scope
collaborator; the produced lines are modelled). -/
def query_dump (s : Schema) (filter : Record) (limit : Option Nat) (st : TableState) :
    Except CetinoError (List String) × TableState :=
  match query s filter limit st with
  | (.error e, st2) => (.error e, st2)
  | (.ok rows, st2) => (.ok (exportRows rows s.fieldNames), st2)

/-- A data operation run inside a session. -/
abbrev TableOp := TableState → Except CetinoError Unit × TableState

/-- Runs a list of operations in order, stopping at the first error. -/
def runOps : List TableOp → TableState → Except CetinoError Unit × TableState
  | [], st => (.ok (), st)
  | op :: rest, st =>
    match op st with
    | (.error e, st2) => (.error e, st2)
    | (.ok _, st2) => runOps rest st2

/-- Modelled from the spec: the scoped session (`with` block) — entering
acquires the connection (state Open), leaving releases it on every exit
path, normal or error. -/
def runSession (ops : List TableOp) (st : TableState) :
    Except CetinoError Unit × TableState :=
  let r := runOps ops { st with isOpen := true }
  (r.1, { r.2 with isOpen := false })

/-- The characters of the base name of a path: the longest suffix free of
the directory separator. -/
def baseNameChars (cs : List Char) : List Char :=
  (cs.reverse.takeWhile (fun c => c ≠ '/')).reverse

/-- The base name of a database file path, directory portion stripped. -/
def baseName (p : String) : String :=
  String.mk (baseNameChars p.data)

/-- Modelled from the spec: the text representation of a Table Storage
instance (the notebook shows `StudentTableStorage(test_db.sqlite)` for the
path `./test_db.sqlite`). -/
def tableStorageRepr (className dbPath : String) : String :=
  className ++ "(" ++ baseName dbPath ++ ")"

/-- The exact-match filter selecting the primary key of a record: one constraint
per primary-key field, valued as the record provides it. -/
def pkFilter (s : Schema) (r : Record) : Record :=
  s.primary_key.map (fun k => (k, (r.lookup k).getD .vNull))

/-- The student schema declared in the user guide notebook. -/
def studentSchema : Schema :=
  { table_name := "student"
    fields := [("student_id", .INTEGER), ("name", .TEXT), ("age", .INTEGER)]
    primary_key := ["student_id"]
    unique_keys := [] }

/-- The two partial records of the insert_many example in the readme. -/
def readmeRecords : List Record :=
  [[("name", Value.vText "iris"), ("age", Value.vInt 4)],
   [("name", Value.vText "george"), ("age", Value.vInt 5)]]

/-- The record inserted in the round-trip scenario of the user guide. -/
def johnRecord : Record :=
  [("student_id", Value.vInt 1), ("name", Value.vText "John"), ("age", Value.vInt 20)]

/-- An open storage state over an existing empty table. -/
def openState : TableState :=
  { isOpen := true, tableExists := true, rows := [] }

/-- A closed storage state (outside any session). -/
def closedState : TableState :=
  { isOpen := false, tableExists := true, rows := [] }

/-- An open storage state whose table holds five rows. -/
def fiveRowState : TableState :=
  { isOpen := true, tableExists := true,
    rows := [[("age", Value.vInt 1)], [("age", Value.vInt 2)], [("age", Value.vInt 3)],
             [("age", Value.vInt 4)], [("age", Value.vInt 5)]] }

example : create_statement studentSchema =
    "CREATE TABLE student (\nstudent_id INTEGER,\nname TEXT,\nage INTEGER,\nPRIMARY KEY (student_id)\n);" := by
  rfl

example : tableStorageRepr "StudentTableStorage" "./test_db.sqlite" =
    "StudentTableStorage(test_db.sqlite)" := by
  rfl

/-- Claim C6: entering a scoped session acquires the connection and leaving
it — on normal exit or after any operation errors — always releases it, so
the instance is never left Open after the session ends. -/
theorem session_always_releases (ops : List TableOp) (st : TableState) :
    (runSession ops st).2.isOpen = false := rfl

/-- Claim C7: every data operation (create, drop, insert, insert_many,
query, query_dump) invoked in state Closed fails with NotOpenError and
leaves the state untouched. -/
theorem closed_state_rejects_all (s : Schema) (st : TableState)
    (h : st.isOpen = false) (ae ane : Bool) (r : Record) (records : List Record)
    (filter : Record) (limit : Option Nat) :
    create s ae st = (.error .notOpenError, st) ∧
    drop s ane st = (.error .notOpenError, st) ∧
    insert s r st = (.error .notOpenError, st) ∧
    insert_many s records st = (.error .notOpenError, st) ∧
    query s filter limit st = (.error .notOpenError, st) ∧
    query_dump s filter limit st = (.error .notOpenError, st) := by
  simp [create, drop, insert, insert_many, query, query_dump, h]

/-- Witness for C7 at a concrete closed state. -/
theorem closed_state_rejects_all_witness :
    create studentSchema true closedState = (.error .notOpenError, closedState) :=
  (closed_state_rejects_all studentSchema closedState rfl true true [] [] [] none).1

/-- Claim C8: with no explicit primary key the Schema Descriptor defaults to
the single-field tuple ("_id",), and the constructor fails with SchemaError
when "_id" is not among the declared fields. -/
theorem default_primary_key_spec (n : String)
    (fields : List (String × SQLiteDataType)) (uks : List (List String)) :
    (∀ s, mkSchema n fields none uks = .ok s → s.primary_key = [defaultKeyName]) ∧
    ((fields.map Prod.fst).contains defaultKeyName = false →
      mkSchema n fields none uks = .error .schemaError) := by
  constructor
  · intro s hs
    unfold mkSchema at hs
    split at hs
    · cases hs
      rfl
    · exact absurd hs (by simp)
  · intro hcontains
    have hfail : ¬ schemaOk (rawSchema n fields none uks) = true := by
      intro h
      unfold schemaOk at h
      simp only [Bool.and_eq_true] at h
      have hpk := h.1.2
      simp only [rawSchema, Option.getD, Schema.fieldNames, List.all_cons,
        List.all_nil, Bool.and_true] at hpk
      rw [hcontains] at hpk
      exact Bool.false_ne_true hpk
    unfold mkSchema
    rw [if_neg hfail]

/-- Witness for C8 at a concrete field list missing "_id". -/
theorem default_primary_key_witness :
    mkSchema "t" [("x", SQLiteDataType.INTEGER)] none [] = .error .schemaError :=
  (default_primary_key_spec "t" [("x", SQLiteDataType.INTEGER)] []).2 (by decide)

/-- Claim C10: the text representation of a Table Storage instance is the
concrete class name followed, in parentheses, by the base name of the
database file path — the directory portion stripped: the base name contains
no separator and is a suffix of the path. -/
theorem table_storage_repr_spec (cls p : String) :
    tableStorageRepr cls p = cls ++ "(" ++ baseName p ++ ")" ∧
    (∀ c ∈ (baseName p).data, c ≠ '/') ∧
    (∃ d, p.data = d ++ (baseName p).data) := by
  refine ⟨rfl, ?_, ?_⟩
  · intro c hc
    have hc2 : c ∈ (p.data.reverse.takeWhile (fun c => c ≠ '/')) := by
      simpa [baseName, baseNameChars, List.mem_reverse] using hc
    have := List.mem_takeWhile_imp hc2
    simpa using this
  · refine ⟨(p.data.reverse.dropWhile (fun c => c ≠ '/')).reverse, ?_⟩
    have h1 : p.data.reverse.takeWhile (fun c => c ≠ '/') ++
        p.data.reverse.dropWhile (fun c => c ≠ '/') = p.data.reverse :=
      List.takeWhile_append_dropWhile _ _
    have h2 := congrArg List.reverse h1
    rw [List.reverse_append, List.reverse_reverse] at h2
    exact h2.symm

/-- Witness for C10 at the class name and database path shown in the notebook. -/
theorem table_storage_repr_witness :
    tableStorageRepr "StudentTableStorage" "./test_db.sqlite" =
      "StudentTableStorage" ++ "(" ++ baseName "./test_db.sqlite" ++ ")" :=
  (table_storage_repr_spec "StudentTableStorage" "./test_db.sqlite").1

/-- Claim C2: the create-table statement is deterministic and its clause
list holds exactly one column clause per declared field in declaration
order, then the PRIMARY KEY clause when the primary key is non-empty, then
one UNIQUE clause per unique-key entry. -/
theorem create_statement_shape (s : Schema) :
    create_statement s = "CREATE TABLE " ++ s.table_name ++ " (\n" ++
      String.intercalate ",\n" (createClauses s) ++ "\n);" ∧
    (∀ t : Schema, s = t → create_statement s = create_statement t) ∧
    ((createClauses s).length =
      s.fields.length + (primaryKeyClauses s).length + s.unique_keys.length) ∧
    ((createClauses s).take s.fields.length = s.fields.map columnClause) ∧
    ((createClauses s).drop s.fields.length =
      primaryKeyClauses s ++ s.unique_keys.map uniqueClause) ∧
    (s.primary_key ≠ [] → primaryKeyClauses s =
      ["PRIMARY KEY (" ++ String.intercalate ", " s.primary_key ++ ")"]) ∧
    (s.primary_key = [] → primaryKeyClauses s = []) := by
  refine ⟨rfl, fun t h => by rw [h], ?_, ?_, ?_, ?_, ?_⟩
  · simp [createClauses]
    omega
  · unfold createClauses
    rw [List.append_assoc]
    exact List.take_left' (by rw [List.length_map])
  · unfold createClauses
    rw [List.append_assoc]
    exact List.drop_left' (by rw [List.length_map])
  · intro hne
    unfold primaryKeyClauses
    rw [if_neg (by simpa [List.isEmpty_iff] using hne)]
  · intro hemp
    unfold primaryKeyClauses
    rw [if_pos (by simpa [List.isEmpty_iff] using hemp)]

/-- Witness for C2 at the student schema, whose primary key is non-empty. -/
theorem create_statement_shape_witness :
    primaryKeyClauses studentSchema =
      ["PRIMARY KEY (" ++ String.intercalate ", " studentSchema.primary_key ++ ")"] :=
  (create_statement_shape studentSchema).2.2.2.2.2.1 (by decide)

/-- Claim C4: inserting a record holding a key that is not a declared field
fails with UnknownFieldError before anything reaches the engine, and the
state (table contents included) is unchanged. -/
theorem insert_unknown_field_spec (s : Schema) (r : Record) (st : TableState)
    (hopen : st.isOpen = true) (k : String) (hk : k ∈ recordKeys r)
    (hnd : s.fieldNames.contains k = false) :
    insert s r st = (.error .unknownFieldError, st) := by
  have hbad : recordFieldsOk s r = false := by
    cases hB : recordFieldsOk s r with
    | false => rfl
    | true =>
      obtain ⟨kv, hkv, hk1⟩ := List.mem_map.mp hk
      have := (List.all_eq_true.mp hB) kv hkv
      rw [hk1] at this
      rw [hnd] at this
      exact absurd this (by simp)
  have hval : validateRecord s r = .error .unknownFieldError := by
    unfold validateRecord
    rw [hbad]
    rfl
  simp [insert, insert_statement, hopen, hval]

/-- Witness for C4 at the scenario record of the spec with an undeclared key. -/
theorem insert_unknown_field_witness :
    insert studentSchema
      [("student_id", Value.vInt 1), ("unknown_field", Value.vText "x")] openState =
      (.error .unknownFieldError, openState) :=
  insert_unknown_field_spec studentSchema
    [("student_id", Value.vInt 1), ("unknown_field", Value.vText "x")] openState rfl
    "unknown_field" (by decide) (by decide)

/-- Claim C3: a successful query with a limit returns at most that many
records, every returned record satisfies all AND-combined exact-match
filter constraints, and the limit is carried inside the statement given to
the storage engine (bounding the rows requested, not truncating a
materialized result). -/
theorem query_limit_spec (s : Schema) (filter : Record) (n : Nat)
    (st : TableState) (hopen : st.isOpen = true) (hex : st.tableExists = true)
    (hf : recordFieldsOk s filter = true) :
    ∃ stmt, select_statement s filter (some n) = .ok stmt ∧
      stmt.limit = some n ∧
      query s filter (some n) st =
        (.ok (engineSelect st.rows filter (some n)), st) ∧
      (engineSelect st.rows filter (some n)).length ≤ n ∧
      ∀ row ∈ engineSelect st.rows filter (some n),
        matchesFilter filter row = true := by
  have hsel : select_statement s filter (some n) =
      .ok { text := "SELECT * FROM " ++ s.table_name ++ whereText filter ++
                    limitText (some n) ++ ";"
            values := filter.map Prod.snd
            limit := some n } := by
    unfold select_statement
    rw [hf]
    rfl
  refine ⟨_, hsel, rfl, ?_, ?_, ?_⟩
  · simp [query, hopen, hex, hsel]
  · exact List.length_take_le n _
  · intro row hrow
    exact List.of_mem_filter (List.mem_of_mem_take hrow)

/-- Witness for C3 at the student schema with an age filter and limit 1. -/
theorem query_limit_witness :
    ∃ stmt, select_statement studentSchema [("age", Value.vInt 3)] (some 1) = .ok stmt ∧
      stmt.limit = some 1 ∧
      query studentSchema [("age", Value.vInt 3)] (some 1) openState =
        (.ok (engineSelect openState.rows [("age", Value.vInt 3)] (some 1)), openState) ∧
      (engineSelect openState.rows [("age", Value.vInt 3)] (some 1)).length ≤ 1 ∧
      ∀ row ∈ engineSelect openState.rows [("age", Value.vInt 3)] (some 1),
        matchesFilter [("age", Value.vInt 3)] row = true :=
  query_limit_spec studentSchema [("age", Value.vInt 3)] 1 openState rfl rfl (by decide)

/-- Claim C9: query_dump with limit 2 over a 5-row table produces exactly
one header line matching the declared column order plus exactly two data
lines, one per exported record. -/
theorem query_dump_header_and_rows (s : Schema) (st : TableState)
    (hopen : st.isOpen = true) (hex : st.tableExists = true)
    (h5 : st.rows.length = 5) :
    query_dump s [] (some 2) st =
      (.ok (String.intercalate "," s.fieldNames ::
        (st.rows.take 2).map (rowLine s.fieldNames)), st) ∧
    ((st.rows.take 2).map (rowLine s.fieldNames)).length = 2 := by
  have hfilter : st.rows.filter (matchesFilter []) = st.rows :=
    List.filter_eq_self.mpr (fun a _ => rfl)
  have hq : query s [] (some 2) st = (.ok (st.rows.take 2), st) := by
    unfold query select_statement
    simp [hopen, hex, recordFieldsOk, engineSelect, hfilter]
  constructor
  · unfold query_dump
    rw [hq]
    rfl
  · rw [List.length_map, List.length_take, h5]
    rfl

/-- Witness for C9 at the student schema over a concrete five-row table. -/
theorem query_dump_header_and_rows_witness :
    query_dump studentSchema [] (some 2) fiveRowState =
      (.ok (String.intercalate "," studentSchema.fieldNames ::
        (fiveRowState.rows.take 2).map (rowLine studentSchema.fieldNames)),
       fiveRowState) ∧
    ((fiveRowState.rows.take 2).map (rowLine studentSchema.fieldNames)).length = 2 :=
  query_dump_header_and_rows studentSchema fiveRowState rfl rfl (by decide)

theorem insert_statement_ok_of_validate (s : Schema) (r : Record)
    (h : validateRecord s r = .ok ()) : ∃ p, insert_statement s r = .ok p := by
  unfold insert_statement
  rw [h]
  exact ⟨_, rfl⟩

theorem insert_statement_error_of_validate (s : Schema) (r : Record)
    (e : CetinoError) (h : validateRecord s r = .error e) :
    insert_statement s r = .error e := by
  unfold insert_statement
  rw [h]

theorem batch_ok_of_all_valid (s : Schema) (records : List Record)
    (h : ∀ r ∈ records, validateRecord s r = .ok ()) :
    ∃ ps, batch_insert_statements s records = .ok ps := by
  induction records with
  | nil => exact ⟨[], rfl⟩
  | cons r rest ih =>
    obtain ⟨p, hp⟩ := insert_statement_ok_of_validate s r (h r (by simp))
    obtain ⟨ps, hps⟩ := ih (fun x hx => h x (by simp [hx]))
    exact ⟨p :: ps, by simp [batch_insert_statements, hp, hps]⟩

theorem batch_error_of_invalid (s : Schema) (records : List Record)
    (h : ∃ r ∈ records, ∃ e, validateRecord s r = .error e) :
    ∃ e, batch_insert_statements s records = .error e := by
  induction records with
  | nil => simp at h
  | cons r rest ih =>
    obtain ⟨r0, hr0, e0, he0⟩ := h
    rcases List.mem_cons.mp hr0 with hhead | htail
    · subst hhead
      exact ⟨e0, by simp [batch_insert_statements,
        insert_statement_error_of_validate s r0 e0 he0]⟩
    · rcases hins : insert_statement s r with e1 | p
      · exact ⟨e1, by simp [batch_insert_statements, hins]⟩
      · obtain ⟨e, he⟩ := ih ⟨r0, htail, e0, he0⟩
        exact ⟨e, by simp [batch_insert_statements, hins, he]⟩

/-- Claim C1: insert_many validates every record before anything reaches
the storage engine and commits as one atomic unit — when any record fails
validation no row is committed and the state is unchanged; when all records
are valid, all rows are committed. -/
theorem insert_many_all_or_nothing (s : Schema) (records : List Record)
    (st : TableState) (hopen : st.isOpen = true) :
    ((∃ r ∈ records, ∃ e, validateRecord s r = .error e) →
      ∃ e, insert_many s records st = (.error e, st)) ∧
    ((∀ r ∈ records, validateRecord s r = .ok ()) → st.tableExists = true →
      insert_many s records st =
        (.ok (), { st with rows := st.rows ++ records.map (storedRow s) })) := by
  constructor
  · intro h
    obtain ⟨e, he⟩ := batch_error_of_invalid s records h
    exact ⟨e, by simp [insert_many, hopen, he]⟩
  · intro h hex
    obtain ⟨ps, hps⟩ := batch_ok_of_all_valid s records h
    simp [insert_many, hopen, hps, hex]

/-- Witness for C1 at the two valid partial records of the readme. -/
theorem insert_many_all_or_nothing_witness :
    insert_many studentSchema readmeRecords openState =
      (.ok (), { openState with
        rows := openState.rows ++ readmeRecords.map (storedRow studentSchema) }) :=
  (insert_many_all_or_nothing studentSchema readmeRecords openState rfl).2
    (by decide) rfl

theorem lookup_map_pair (g : String → Value) (l : List String) (k : String) :
    (l.map (fun nm => (nm, g nm))).lookup k =
      if l.contains k then some (g k) else none := by
  induction l with
  | nil => rfl
  | cons a lt ih =>
    by_cases hak : k = a
    · subst hak
      simp [List.lookup]
    · have hbeq : (k == a) = false := by simp [hak]
      simp [List.lookup, hbeq, ih, hak]

theorem lookup_storedRow (s : Schema) (r : Record) (k : String)
    (hk : s.fieldNames.contains k = true) :
    (storedRow s r).lookup k = some ((r.lookup k).getD .vNull) := by
  unfold storedRow
  rw [lookup_map_pair, if_pos hk]

theorem lookup_of_mem_nodupKeys (r : Record)
    (hnd : nodupNames (recordKeys r) = true) (k : String) (v : Value)
    (hmem : (k, v) ∈ r) : r.lookup k = some v := by
  induction r with
  | nil => cases hmem
  | cons kv rest ih =>
    have hnd2 : (!(recordKeys rest).contains kv.1 &&
        nodupNames (recordKeys rest)) = true := hnd
    rw [Bool.and_eq_true] at hnd2
    rcases List.mem_cons.mp hmem with hhead | htail
    · rw [← hhead]
      simp [List.lookup]
    · have hne : ¬ k = kv.1 := by
        intro hkk
        have hm : kv.1 ∈ recordKeys rest :=
          List.mem_map.mpr ⟨(k, v), htail, by rw [hkk]⟩
        have hc := hnd2.1
        simp at hc
        exact hc hm
      have hbeq : (k == kv.1) = false := by simp [hne]
      have : List.lookup k (kv :: rest) = List.lookup k rest := by
        rcases kv with ⟨k1, v1⟩
        simp [List.lookup, hbeq]
      rw [this]
      exact ih hnd2.2 htail

theorem matchesFilter_pkFilter (s : Schema) (r : Record)
    (hpk : ∀ k ∈ s.primary_key, s.fieldNames.contains k = true) :
    matchesFilter (pkFilter s r) (storedRow s r) = true := by
  unfold matchesFilter pkFilter
  rw [List.all_eq_true]
  intro kv hkv
  obtain ⟨k, hk, hkeq⟩ := List.mem_map.mp hkv
  subst hkeq
  simp only [decide_eq_true_eq]
  exact lookup_storedRow s r k (hpk k hk)

/-- Claim C5: a valid record inserted into a table with no row matching its
primary key and then queried back with the primary-key filter yields exactly
one record that agrees field-for-field with the inserted one on every field
present in the insert. -/
theorem insert_query_round_trip (s : Schema) (r : Record) (st : TableState)
    (hok : schemaOk s = true) (hopen : st.isOpen = true)
    (hex : st.tableExists = true) (hval : validateRecord s r = .ok ())
    (hnd : nodupNames (recordKeys r) = true)
    (hfresh : ∀ row ∈ st.rows, matchesFilter (pkFilter s r) row = false) :
    insert s r st = (.ok (), { st with rows := st.rows ++ [storedRow s r] }) ∧
    query s (pkFilter s r) none { st with rows := st.rows ++ [storedRow s r] } =
      (.ok [storedRow s r], { st with rows := st.rows ++ [storedRow s r] }) ∧
    ∀ kv ∈ r, (storedRow s r).lookup kv.1 = some kv.2 := by
  have hpkc : ∀ k ∈ s.primary_key, s.fieldNames.contains k = true := by
    unfold schemaOk at hok
    simp only [Bool.and_eq_true] at hok
    exact List.all_eq_true.mp hok.1.2
  have hfok : recordFieldsOk s r = true := by
    cases hB : recordFieldsOk s r with
    | true => rfl
    | false =>
      unfold validateRecord at hval
      rw [hB] at hval
      exact absurd hval (by simp)
  have hfilterok : recordFieldsOk s (pkFilter s r) = true := by
    unfold recordFieldsOk pkFilter
    rw [List.all_eq_true]
    intro kv hkv
    obtain ⟨k, hk, hkeq⟩ := List.mem_map.mp hkv
    subst hkeq
    exact hpkc k hk
  have hmatch : matchesFilter (pkFilter s r) (storedRow s r) = true :=
    matchesFilter_pkFilter s r hpkc
  obtain ⟨p, hp⟩ := insert_statement_ok_of_validate s r hval
  refine ⟨?_, ?_, ?_⟩
  · simp [insert, hopen, hp, hex]
  · have hnil : (st.rows.filter (matchesFilter (pkFilter s r))) = [] := by
      rw [List.filter_eq_nil_iff]
      intro a ha hcon
      rw [hfresh a ha] at hcon
      exact absurd hcon (by simp)
    simp [query, hopen, hex, select_statement, hfilterok, engineSelect,
      List.filter_append, hnil, hmatch]
  · intro kv hkv
    have hcont : s.fieldNames.contains kv.1 = true :=
      List.all_eq_true.mp hfok kv hkv
    rw [lookup_storedRow s r kv.1 hcont,
      lookup_of_mem_nodupKeys r hnd kv.1 kv.2 hkv]
    rfl

/-- Witness for C5 at the student record of the user guide over a fresh table. -/
theorem insert_query_round_trip_witness :
    insert studentSchema johnRecord openState =
      (.ok (), { openState with
        rows := openState.rows ++ [storedRow studentSchema johnRecord] }) ∧
    query studentSchema (pkFilter studentSchema johnRecord) none
      { openState with
        rows := openState.rows ++ [storedRow studentSchema johnRecord] } =
      (.ok [storedRow studentSchema johnRecord],
       { openState with
         rows := openState.rows ++ [storedRow studentSchema johnRecord] }) ∧
    ∀ kv ∈ johnRecord,
      (storedRow studentSchema johnRecord).lookup kv.1 = some kv.2 :=
  insert_query_round_trip studentSchema johnRecord openState (by decide) rfl rfl
    (by decide) (by decide) (by decide)

end Cetino
